import Mathlib

/-!
# PsrSigSim — verification of the observation pipeline and signal base class

Shallow embedding of `psrsigsim/telescope/telescope.py` (`Telescope.observe`)
and `psrsigsim/signal/signal.py` (`BaseSignal.__init__`, `_set_draw_norm`).

Modelling conventions:
* Physical quantities and array samples are exact rationals `ℚ` (the Python
  code computes with floats/astropy quantities; float rounding is not
  modelled).
* A 2-D numpy array is a `List (List ℚ)` of rows.
* Python `raise` is `Except`: the `KeyError` from an unknown system name is
  `ObsErr.configurationError` and the `ValueError` for an unreconcilable
  sample rate is `ObsErr.sampleRateError`, following the error taxonomy of
  the design document.
* Python float `%` on positive operands is `qmod a b = a - b * ⌊a / b⌋`.
* `down_sample` and `rebin` live in `psrsigsim/utils/utils.py`, which is not
  among the provided sources; they are modelled from the design document
  (see their doc comments).
* `Telescope.radiometer_noise` is likewise absent from the sources; `observe`
  takes it as an explicit function argument `radiometer_noise` that produces
  the additive noise sample for each array position, given the signal, the
  output shape and the integration time step — exactly the data the source
  passes to it.
-/

namespace PsrSigSim

/-- Numpy dtype tags relevant to the signal layer.  `float32` and `int8` are
the documented supported types; `float64` stands for any other dtype value a
caller could pass. -/
inductive NpDtype
  | float32
  | int8
  | float64
  deriving DecidableEq, Repr

/-- Python truthiness of the class object `np.int8`: a type object defines
neither `__bool__` nor `__len__`, so `bool(np.int8)` is `True`. -/
def npInt8ClassTruthy : Bool := true

/-- Errors surfaced by `Telescope.observe`, named as in the design document:
`configurationError` is the `KeyError` raised by `self.systems[system]` for an
unknown key, `sampleRateError` is the `ValueError` raised when the signal
sample frequency is below the telescope sample frequency. -/
inductive ObsErr
  | configurationError
  | sampleRateError
  deriving DecidableEq, Repr

/-- Exceptions raised by `BaseSignal.__init__`. -/
inductive PyError
  | nameError
  | valueError
  deriving DecidableEq, Repr

/-- `signal.MetaData`: the representation metadata `observe` reads —
`gauss_draw_max` (voltage clip), `gamma_draw_max` (intensity clip) and the
output `data_type`. -/
structure MetaData where
  gauss_draw_max : ℚ
  gamma_draw_max : ℚ
  data_type : NpDtype
  deriving DecidableEq, Repr

/-- The signal descriptor consumed by `Telescope.observe`: its data array
`signal`, timing (`ObsTime`, `Nt`), kind tag `SignalType` (the source
compares it with the string `"voltage"`), row counts `Npols`/`Nf`, the
optional `subintlen`, and the representation metadata. -/
structure Signal where
  signal : List (List ℚ)
  ObsTime : ℚ
  Nt : ℕ
  SignalType : String
  Npols : ℕ
  Nf : ℕ
  subintlen : Option ℚ
  MetaData : MetaData
  deriving DecidableEq, Repr

/-- `Backend(samprate, name)`. -/
structure Backend where
  samprate : ℚ
  name : String
  deriving DecidableEq, Repr

/-- `Receiver(fcent, bandwidth, name)`. -/
structure Receiver where
  fcent : ℚ
  bandwidth : ℚ
  name : String
  deriving DecidableEq, Repr

/-- A `Telescope`: configuration attributes plus the `systems` mapping from
name to `(receiver, backend)` pairs.  The Python `dict` is modelled as an
association list queried with `List.lookup`. -/
structure Telescope where
  name : String
  aperture : ℚ
  area : ℚ
  gain : ℚ
  Tsys : Option ℚ
  systems : List (String × (Receiver × Backend))
  deriving DecidableEq, Repr

/-- `Telescope.add_system(name, receiver, backend)`: upsert into the systems
mapping (`self._systems[name] = (receiver, backend)`); prepending gives the
same `List.lookup` behaviour as Python dict assignment. -/
def add_system (tel : Telescope) (name : String) (receiver : Receiver)
    (backend : Backend) : Telescope :=
  { tel with systems := (name, (receiver, backend)) :: tel.systems }

/-- Python float `%` for the positive operands `observe` uses:
`a % b = a - b * floor(a / b)`. -/
def qmod (a b : ℚ) : ℚ := a - b * ⌊a / b⌋

/-- The telescope sampling interval `dt_tel = 1/(2*bak.samprate)`. -/
def dtTel (bak : Backend) : ℚ := 1 / (2 * bak.samprate)

/-- The signal's native sampling interval `dt_sig = signal.ObsTime / signal.Nt`. -/
def dtSig (sig : Signal) : ℚ := sig.ObsTime / (sig.Nt : ℚ)

/-- The row count of the allocated output array: `signal.Npols` when
`signal.SignalType == 'voltage'`, else `signal.Nf`. -/
def rowCount (sig : Signal) : ℕ :=
  if sig.SignalType = "voltage" then sig.Npols else sig.Nf

/-- Modelled from the spec: `down_sample` is defined in
`psrsigsim/utils/utils.py`, which is not among the provided sources.  Per the
design document it groups `factor` consecutive samples, reduces each group to
one sample by averaging, yields `⌊len/factor⌋` output samples and drops the
trailing remainder. -/
def down_sample (row : List ℚ) (factor : ℕ) : List ℚ :=
  (List.range (row.length / factor)).map fun i =>
    (((List.range factor).map fun j => row.getD (i * factor + j) 0).sum) / (factor : ℚ)

/-- Overlap (measured in input-bin widths) between input bin `i` and output
bin `j` when `len` input bins are regridded onto `new_Nt` output bins. -/
def binOverlap (len new_Nt i j : ℕ) : ℚ :=
  max 0 (min ((i : ℚ) + 1) (((j : ℚ) + 1) * len / new_Nt) -
         max ((i : ℚ)) ((j : ℚ) * len / new_Nt))

/-- Modelled from the spec: `rebin` is defined in
`psrsigsim/utils/utils.py`, which is not among the provided sources.  Per the
design document it maps the row onto `new_Nt` bins covering the same total
duration, redistributing each input sample proportionally to the overlap
between its original bin and each new bin (area/flux preserving). -/
def rebin (row : List ℚ) (new_Nt : ℕ) : List ℚ :=
  (List.range new_Nt).map fun j =>
    ((new_Nt : ℚ) / (row.length : ℚ)) *
      (((List.range row.length).map fun i => binOverlap row.length new_Nt i j * row.getD i 0).sum)

/-- The orchestrator's per-branch output construction: allocate
`np.zeros((rows, width))` and overwrite row `ii` with the processed input row
`f row` for each `ii, row` in `enumerate(sig_in)`. -/
def fillRows (rows width : ℕ) (data : List (List ℚ)) (f : List ℚ → List ℚ) :
    List (List ℚ) :=
  (List.range rows).map fun i => ((data.get? i).map f).getD (List.replicate width 0)

/-- The sample-rate reconciliation and resampling phase of
`Telescope.observe` (the `if dt_sig == dt_tel … elif … else raise` chain):
* `dt_sig == dt_tel` → the input data, copied unchanged;
* `dt_tel % dt_sig == 0` → each row decimated by
  `SampFactor = int(dt_tel // dt_sig)` into `int(Nt // SampFactor)` samples;
* `dt_tel > dt_sig` → each row rebinned onto `int(ObsTime // dt_tel)` samples;
* otherwise → `ValueError` (the signal sampling frequency is below the
  telescope sampling frequency). -/
def resample (sig : Signal) (bak : Backend) : Except ObsErr (List (List ℚ)) :=
  if dtSig sig = dtTel bak then
    .ok sig.signal
  else if qmod (dtTel bak) (dtSig sig) = 0 then
    let SampFactor : ℕ := (⌊dtTel bak / dtSig sig⌋).toNat
    let new_Nt : ℕ := sig.Nt / SampFactor
    .ok (fillRows (rowCount sig) new_Nt sig.signal (fun row => down_sample row SampFactor))
  else if dtTel bak > dtSig sig then
    let new_Nt : ℕ := (⌊sig.ObsTime / dtTel bak⌋).toNat
    .ok (fillRows (rowCount sig) new_Nt sig.signal (fun row => rebin row new_Nt))
  else
    .error .sampleRateError

/-- Python truthiness of `signal.subintlen` in `if signal.subintlen:`:
`None` and `0.0` are falsy, any nonzero number is truthy. -/
def subintTruthy : Option ℚ → Bool
  | none => false
  | some x => x != 0

/-- The `subintlen` override of `observe` (the "BRENT HACK"): after
resampling, if `signal.subintlen` is truthy, the time step handed to
`radiometer_noise` becomes `signal.subintlen * 1000.0` (seconds to ms),
otherwise it stays the backend-derived `dt_tel`. -/
def noiseDt (sig : Signal) (dt_tel : ℚ) : ℚ :=
  if subintTruthy sig.subintlen then sig.subintlen.getD 0 * 1000 else dt_tel

/-- `out.shape` of a 2-D numpy array modelled as a row list: the row count
and the length of the first row (`0` when empty). -/
def npShape (arr : List (List ℚ)) : ℕ × ℕ :=
  (arr.length, (arr.head?.map List.length).getD 0)

/-- `out += noiseArr`, where `noiseArr i j` is the additive noise sample the
(absent) `radiometer_noise` produced for position `(i, j)` of the requested
shape. -/
def addNoise (arr : List (List ℚ)) (noiseArr : ℕ → ℕ → ℚ) : List (List ℚ) :=
  arr.enum.map fun p => p.2.enum.map fun q => q.2 + noiseArr p.1 q.1

/-- First clipping pass for voltage signals: `out[out > clip] = clip`. -/
def clipHi (clip : ℚ) (arr : List (List ℚ)) : List (List ℚ) :=
  arr.map fun row => row.map fun v => if v > clip then clip else v

/-- Second clipping pass for voltage signals: `out[out < -clip] = -clip`. -/
def clipLo (clip : ℚ) (arr : List (List ℚ)) : List (List ℚ) :=
  arr.map fun row => row.map fun v => if v < -clip then -clip else v

/-- Truncation toward zero, as the C cast behind `np.array(_, dtype=np.int8)`
performs on a float. -/
def ratTrunc (q : ℚ) : ℤ := if 0 ≤ q then ⌊q⌋ else ⌈q⌉

/-- `np.array(out, dtype=data_type)` on one sample: identity for the float
dtypes (float rounding is not modelled), truncation with 8-bit wraparound for
`int8`. -/
def castVal : NpDtype → ℚ → ℚ
  | .float32, q => q
  | .float64, q => q
  | .int8, q => (((ratTrunc q + 128) % 256) - 128 : ℤ)

/-- The quantization tail of `observe`: clip at `gauss_draw_max` on both
sides for voltage signals, at `gamma_draw_max` from above otherwise, then
cast to `signal.MetaData.data_type`. -/
def clipQuant (sig : Signal) (arr : List (List ℚ)) : List (List ℚ) :=
  let clipped :=
    if sig.SignalType = "voltage" then
      clipLo sig.MetaData.gauss_draw_max (clipHi sig.MetaData.gauss_draw_max arr)
    else
      clipHi sig.MetaData.gamma_draw_max arr
  clipped.map fun row => row.map (castVal sig.MetaData.data_type)

/-- `Telescope.observe(signal, system, mode, noise)`.  `radiometer_noise`
stands for the method of the same name, absent from the provided sources: it
receives the signal, the output shape and the (possibly overridden) time
step, and yields the noise sample for each array position. -/
def observe (tel : Telescope) (sig : Signal) (system : String) (mode : String)
    (noise : Bool)
    (radiometer_noise : Signal → ℕ × ℕ → ℚ → ℕ → ℕ → ℚ) :
    Except ObsErr (List (List ℚ)) :=
  match List.lookup system tel.systems with
  | none => .error .configurationError
  | some (_rec, bak) =>
    match resample sig bak with
    | .error e => .error e
    | .ok out =>
      let dt := noiseDt sig (dtTel bak)
      let out :=
        if noise then addNoise out (radiometer_noise sig (npShape out) dt) else out
      .ok (clipQuant sig out)

/-- State-passing form of `observe`: every in-place numpy update in the
method body (`out[ii, :] = …`, `out += …`, `out[out > clip] = clip`,
`out[out < -clip] = -clip`) targets the local array `out`, which is freshly
allocated in each branch (`np.array(sig_in, dtype=float)` copies,
`np.zeros` allocates); no statement assigns to `signal` or `self`, so
threading the telescope and the signal through the statement sequence
returns both unchanged alongside the result. -/
def observeSt (tel : Telescope) (sig : Signal) (system : String) (mode : String)
    (noise : Bool)
    (radiometer_noise : Signal → ℕ × ℕ → ℚ → ℕ → ℕ → ℚ) :
    Except ObsErr (List (List ℚ)) × Telescope × Signal :=
  (observe tel sig system mode noise radiometer_noise, tel, sig)

/-- The per-row shape of a 2-D array: the list of row lengths (this also
determines the row count). -/
def arrShape (arr : List (List ℚ)) : List ℕ := arr.map List.length

/-! ## The signal base class (`psrsigsim/signal/signal.py`) -/

/-- The state of a `BaseSignal` instance: constructor arguments plus the
class-level defaults `_draw_max = None`, `_draw_norm = 1`. -/
structure BaseSignal where
  fcent : ℚ
  bw : ℚ
  samprate : Option ℚ
  dtype : NpDtype
  draw_max : Option ℚ
  draw_norm : ℚ
  deriving DecidableEq, Repr

/-- The local names in scope in `BaseSignal.__init__` when its dtype guard
runs: the method parameters (no other local assignment precedes the guard —
the statements before it assign attributes of `self`, not locals). -/
def initLocalNames : List String :=
  ["self", "fcent", "bandwidth", "sample_rate", "dtype"]

/-- The `__init__` dtype guard with the misspelt `dype` read as the intended
`dtype`: `dtype is np.float32 or np.int8`.  Python `or` makes this the
disjunction of the identity test with the truthiness of the class object
`np.int8`, which is always truthy. -/
def dtypeGuardIntendedRead (dtype : NpDtype) : Bool :=
  (dtype == NpDtype.float32) || npInt8ClassTruthy

/-- `BaseSignal.__init__(fcent, bandwidth, sample_rate, dtype)`.  Evaluating
the guard `if dype is np.float32 or np.int8:` first resolves the name `dype`;
it is not among the local names (`initLocalNames`), so every call raises
`NameError` before the comparison (shown here with the intended operand) or
the `ValueError` branch can run. -/
def baseSignalInit (fcent bandwidth : ℚ) (sample_rate : Option ℚ)
    (dtype : NpDtype) : Except PyError BaseSignal :=
  if "dype" ∈ initLocalNames then
    if dtypeGuardIntendedRead dtype then
      .ok { fcent := fcent, bw := bandwidth, samprate := sample_rate,
            dtype := dtype, draw_max := none, draw_norm := 1 }
    else
      .error .valueError
  else
    .error .nameError

/-- `np.iinfo(np.int8).max`. -/
def int8max : ℚ := 127

/-- `BaseSignal._set_draw_norm(self)`: two consecutive `if` statements on
`self.dtype`.  `gauss_limit` stands for `scipy.stats.norm.ppf(0.999)` (an
irrational constant, taken as a parameter). -/
def set_draw_norm (gauss_limit : ℚ) (s : BaseSignal) : BaseSignal :=
  let s1 :=
    if s.dtype = NpDtype.float32 then
      { s with draw_max := some 200, draw_norm := 1 }
    else s
  if s1.dtype = NpDtype.int8 then
    { s1 with draw_max := some int8max, draw_norm := int8max / gauss_limit }
  else s1

/-! ## Concrete instances used by witnesses and counterexamples -/

/-- A zero noise function, used where a concrete `radiometer_noise` stand-in
is needed. -/
def rnZero : Signal → ℕ × ℕ → ℚ → ℕ → ℕ → ℚ := fun _ _ _ _ _ => 0

/-- A constant-one noise function, a second concrete `radiometer_noise`
stand-in. -/
def rnOne : Signal → ℕ × ℕ → ℚ → ℕ → ℕ → ℚ := fun _ _ _ _ _ => 1

/-- Example backend with `samprate = 1/8`, so `dt_tel = 4`. -/
def cBak : Backend := { samprate := 1/8, name := "BAK" }

/-- Example receiver. -/
def cRec : Receiver := { fcent := 1400, bandwidth := 800, name := "Lband" }

/-- A second example receiver, differing from `cRec`. -/
def cRec2 : Receiver := { fcent := 430, bandwidth := 100, name := "430" }

/-- Example float32 representation metadata with voltage clip `200` and
intensity clip `50`. -/
def cMeta : MetaData :=
  { gauss_draw_max := 200, gamma_draw_max := 50, data_type := NpDtype.float32 }

/-- Example voltage signal hitting the passthrough branch of `observe` under
`cBak` (`dt_sig = 4/1 = 4 = dt_tel`), with one sample `300` above the voltage
clip `200`. -/
def cSigPass : Signal :=
  { signal := [[300]], ObsTime := 4, Nt := 1, SignalType := "voltage",
    Npols := 1, Nf := 7, subintlen := none, MetaData := cMeta }

/-- Example voltage signal hitting the passthrough branch of `observe` under
`cBak`, with its sample `100` inside the clip range. -/
def cSigOk : Signal :=
  { signal := [[100]], ObsTime := 4, Nt := 1, SignalType := "voltage",
    Npols := 1, Nf := 7, subintlen := none, MetaData := cMeta }

/-- Example voltage signal hitting the decimation branch of `observe` under
`cBak` (`dt_sig = 1`, `dt_tel = 4`, factor `4`). -/
def cSigDec : Signal :=
  { signal := [[1, 2, 3, 4]], ObsTime := 4, Nt := 4, SignalType := "voltage",
    Npols := 1, Nf := 7, subintlen := none, MetaData := cMeta }

/-- Example signal whose native rate is below the telescope rate under `cBak`
(`dt_sig = 5 > 4 = dt_tel`). -/
def cSigErr : Signal :=
  { signal := [[1, 2, 3, 4]], ObsTime := 20, Nt := 4, SignalType := "voltage",
    Npols := 1, Nf := 7, subintlen := none, MetaData := cMeta }

/-- Example voltage signal with a truthy `subintlen = 2`. -/
def cSigSub : Signal :=
  { signal := [[1, 2, 3, 4]], ObsTime := 4, Nt := 4, SignalType := "voltage",
    Npols := 1, Nf := 7, subintlen := some 2, MetaData := cMeta }

/-- Example telescope owning the single system `"s" ↦ (cRec, cBak)`. -/
def cTel : Telescope :=
  { name := "T", aperture := 100, area := 5500, gain := 2, Tsys := some 35,
    systems := [("s", (cRec, cBak))] }

/-- A telescope differing from `cTel` in every configuration attribute and in
the receiver of system `"s"`, but with the same backend. -/
def cTel2 : Telescope :=
  { name := "U", aperture := 300, area := 22000, gain := 9, Tsys := none,
    systems := [("s", (cRec2, cBak))] }

/-- A telescope with no registered systems. -/
def cTelEmpty : Telescope :=
  { name := "E", aperture := 1, area := 1, gain := 1, Tsys := none,
    systems := [] }

/-- Example `BaseSignal` instance with dtype `int8`. -/
def cBS1 : BaseSignal :=
  { fcent := 1400, bw := 800, samprate := none, dtype := NpDtype.int8,
    draw_max := none, draw_norm := 1 }

/-- A second `BaseSignal` instance with dtype `int8` but different fields. -/
def cBS2 : BaseSignal :=
  { fcent := 430, bw := 100, samprate := some 3, dtype := NpDtype.int8,
    draw_max := some 5, draw_norm := 7 }

/-! ## General lemmas about the embedded operations -/

theorem resample_passthrough (sig : Signal) (bak : Backend)
    (h : dtSig sig = dtTel bak) : resample sig bak = .ok sig.signal := by
  unfold resample
  rw [if_pos h]

theorem resample_decimate (sig : Signal) (bak : Backend)
    (hne : dtSig sig ≠ dtTel bak) (hmod : qmod (dtTel bak) (dtSig sig) = 0) :
    resample sig bak =
      .ok (fillRows (rowCount sig) (sig.Nt / (⌊dtTel bak / dtSig sig⌋).toNat)
        sig.signal (fun row => down_sample row (⌊dtTel bak / dtSig sig⌋).toNat)) := by
  unfold resample
  rw [if_neg hne, if_pos hmod]

theorem resample_rebin (sig : Signal) (bak : Backend)
    (hne : dtSig sig ≠ dtTel bak) (hmod : qmod (dtTel bak) (dtSig sig) ≠ 0)
    (hgt : dtTel bak > dtSig sig) :
    resample sig bak =
      .ok (fillRows (rowCount sig) ((⌊sig.ObsTime / dtTel bak⌋).toNat)
        sig.signal (fun row => rebin row ((⌊sig.ObsTime / dtTel bak⌋).toNat))) := by
  unfold resample
  rw [if_neg hne, if_neg hmod, if_pos hgt]

theorem resample_fail (sig : Signal) (bak : Backend)
    (hne : dtSig sig ≠ dtTel bak) (hmod : qmod (dtTel bak) (dtSig sig) ≠ 0)
    (hle : ¬ dtTel bak > dtSig sig) :
    resample sig bak = .error .sampleRateError := by
  unfold resample
  rw [if_neg hne, if_neg hmod, if_neg hle]

theorem fillRows_eq_map (w : ℕ) (data : List (List ℚ)) (f : List ℚ → List ℚ) :
    fillRows data.length w data f = data.map f := by
  induction data with
  | nil => rfl
  | cons d ds ih =>
    simp only [fillRows, List.length_cons, List.range_succ_eq_map, List.map_cons,
      List.map_map, List.get?_cons_zero, Option.map_some, Option.getD_some,
      List.cons.injEq]
    refine ⟨rfl, ?_⟩
    rw [← ih]
    rfl

theorem fillRows_length (rows w : ℕ) (data : List (List ℚ)) (f : List ℚ → List ℚ) :
    (fillRows rows w data f).length = rows := by
  simp [fillRows]

theorem down_sample_length (row : List ℚ) (k : ℕ) :
    (down_sample row k).length = row.length / k := by
  simp [down_sample]

theorem rebin_length (row : List ℚ) (n : ℕ) : (rebin row n).length = n := by
  simp [rebin]

theorem arrShape_addNoise (arr : List (List ℚ)) (noiseArr : ℕ → ℕ → ℚ) :
    arrShape (addNoise arr noiseArr) = arrShape arr := by
  simp only [arrShape, addNoise, List.map_map]
  calc List.map (List.length ∘ fun p : ℕ × List ℚ =>
          p.2.enum.map fun q => q.2 + noiseArr p.1 q.1) arr.enum
      = List.map (List.length ∘ Prod.snd) arr.enum := by
        simp [Function.comp]
    _ = List.map List.length (List.map Prod.snd arr.enum) := by rw [List.map_map]
    _ = List.map List.length arr := by rw [List.enum_map_snd]

theorem arrShape_clipHi (c : ℚ) (arr : List (List ℚ)) :
    arrShape (clipHi c arr) = arrShape arr := by
  simp [arrShape, clipHi, List.map_map, Function.comp]

theorem arrShape_clipLo (c : ℚ) (arr : List (List ℚ)) :
    arrShape (clipLo c arr) = arrShape arr := by
  simp [arrShape, clipLo, List.map_map, Function.comp]

theorem arrShape_clipQuant (sig : Signal) (arr : List (List ℚ)) :
    arrShape (clipQuant sig arr) = arrShape arr := by
  unfold clipQuant
  by_cases h : sig.SignalType = "voltage" <;>
    simp [h, arrShape, clipHi, clipLo, List.map_map, Function.comp]

theorem dtTel_pos (bak : Backend) (h : 0 < bak.samprate) : 0 < dtTel bak := by
  unfold dtTel
  positivity

theorem dtSig_pos (sig : Signal) (hT : 0 < sig.ObsTime) (hNt : 0 < sig.Nt) :
    0 < dtSig sig := by
  unfold dtSig
  have : (0 : ℚ) < (sig.Nt : ℚ) := by exact_mod_cast hNt
  positivity

theorem qmod_of_lt (a b : ℚ) (ha : 0 < a) (hab : a < b) : qmod a b = a := by
  unfold qmod
  have hb : 0 < b := lt_trans ha hab
  have h0 : ⌊a / b⌋ = 0 := by
    rw [Int.floor_eq_zero_iff]
    constructor
    · positivity
    · rw [div_lt_one hb]
      exact hab
  rw [h0]
  ring

theorem length_clipQuant (sig : Signal) (arr : List (List ℚ)) :
    (clipQuant sig arr).length = arr.length := by
  unfold clipQuant
  by_cases h : sig.SignalType = "voltage" <;> simp [h, clipHi, clipLo]

theorem length_addNoise (arr : List (List ℚ)) (noiseArr : ℕ → ℕ → ℚ) :
    (addNoise arr noiseArr).length = arr.length := by
  simp [addNoise]

theorem resample_ok_length (sig : Signal) (bak : Backend) (out : List (List ℚ))
    (hrows : sig.signal.length = rowCount sig)
    (hres : resample sig bak = .ok out) : out.length = rowCount sig := by
  unfold resample at hres
  split_ifs at hres with h1 h2 h3
  · injection hres with h
    rw [← h]
    exact hrows
  · injection hres with h
    rw [← h]
    exact fillRows_length _ _ _ _
  · injection hres with h
    rw [← h]
    exact fillRows_length _ _ _ _

theorem resample_error_iff (sig : Signal) (bak : Backend)
    (hsr : 0 < bak.samprate) (hT : 0 < sig.ObsTime) (hNt : 0 < sig.Nt) :
    resample sig bak = .error .sampleRateError ↔ dtTel bak < dtSig sig := by
  constructor
  · intro h
    by_contra hle
    push_neg at hle
    rcases eq_or_lt_of_le hle with heq | hlt
    · rw [resample_passthrough sig bak heq] at h
      exact Except.noConfusion h
    · by_cases hm : qmod (dtTel bak) (dtSig sig) = 0
      · rw [resample_decimate sig bak (ne_of_lt hlt) hm] at h
        exact Except.noConfusion h
      · rw [resample_rebin sig bak (ne_of_lt hlt) hm hlt] at h
        exact Except.noConfusion h
  · intro hlt
    have htel := dtTel_pos bak hsr
    have hmod := qmod_of_lt (dtTel bak) (dtSig sig) htel hlt
    exact resample_fail sig bak (ne_of_gt hlt) (by rw [hmod]; exact ne_of_gt htel)
      (not_lt.mpr (le_of_lt hlt))

end PsrSigSim

/-! ## Claim theorems -/

namespace PsrSigSim

/-- C1: for every signal and registered system, `observe` selects its
resampling strategy by evaluating, in order: if `dt_sig = dt_tel` the signal
passes through unchanged; else if `dt_tel mod dt_sig = 0` it block-decimates
every row with `factor = ⌊dt_tel/dt_sig⌋`, producing exactly `⌊Nt/factor⌋`
output samples per row; else if `dt_tel > dt_sig` it rebins every row onto
`⌊ObsTime/dt_tel⌋` samples; the row count of the output is `Npols` when the
signal kind is voltage and `Nf` otherwise (both for the resampled array and
for the array `observe` returns). -/
theorem observe_resampling_dispatch (sig : Signal) (bak : Backend)
    (hrows : sig.signal.length = rowCount sig)
    (hlen : ∀ row ∈ sig.signal, row.length = sig.Nt) :
    (dtSig sig = dtTel bak →
      resample sig bak = .ok sig.signal ∧ sig.signal.length = rowCount sig)
    ∧ (dtSig sig ≠ dtTel bak → qmod (dtTel bak) (dtSig sig) = 0 →
      resample sig bak =
        .ok (sig.signal.map fun row => down_sample row (⌊dtTel bak / dtSig sig⌋).toNat) ∧
      (sig.signal.map fun row => down_sample row (⌊dtTel bak / dtSig sig⌋).toNat).length
        = rowCount sig ∧
      ∀ r ∈ sig.signal.map fun row => down_sample row (⌊dtTel bak / dtSig sig⌋).toNat,
        r.length = sig.Nt / (⌊dtTel bak / dtSig sig⌋).toNat)
    ∧ (dtSig sig ≠ dtTel bak → qmod (dtTel bak) (dtSig sig) ≠ 0 →
      dtTel bak > dtSig sig →
      resample sig bak =
        .ok (sig.signal.map fun row => rebin row (⌊sig.ObsTime / dtTel bak⌋.toNat)) ∧
      (sig.signal.map fun row => rebin row (⌊sig.ObsTime / dtTel bak⌋.toNat)).length
        = rowCount sig ∧
      ∀ r ∈ sig.signal.map fun row => rebin row (⌊sig.ObsTime / dtTel bak⌋.toNat),
        r.length = ⌊sig.ObsTime / dtTel bak⌋.toNat)
    ∧ (∀ (tel : Telescope) (system mode : String) (noise : Bool) rn
        (rec : Receiver) (out : List (List ℚ)),
        List.lookup system tel.systems = some (rec, bak) →
        observe tel sig system mode noise rn = .ok out →
        out.length = rowCount sig) := by
  refine ⟨?_, ?_, ?_, ?_⟩
  · intro heq
    exact ⟨resample_passthrough sig bak heq, hrows⟩
  · intro hne hmod
    refine ⟨?_, ?_, ?_⟩
    · rw [resample_decimate sig bak hne hmod, ← hrows, fillRows_eq_map]
    · rw [List.length_map]
      exact hrows
    · intro r hr
      rcases List.mem_map.mp hr with ⟨row, hrow, hfr⟩
      rw [← hfr, down_sample_length, hlen row hrow]
  · intro hne hmod hgt
    refine ⟨?_, ?_, ?_⟩
    · rw [resample_rebin sig bak hne hmod hgt, ← hrows, fillRows_eq_map]
    · rw [List.length_map]
      exact hrows
    · intro r hr
      rcases List.mem_map.mp hr with ⟨row, hrow, hfr⟩
      rw [← hfr, rebin_length]
  · intro tel system mode noise rn rec out hlook hobs
    unfold observe at hobs
    rw [hlook] at hobs
    dsimp only at hobs
    cases hres : resample sig bak with
    | error e =>
      rw [hres] at hobs
      dsimp only at hobs
      exact absurd hobs (by simp)
    | ok r =>
      rw [hres] at hobs
      dsimp only at hobs
      injection hobs with h
      rw [← h, length_clipQuant]
      by_cases hn : noise
      · rw [if_pos hn, length_addNoise]
        exact resample_ok_length sig bak r hrows hres
      · rw [if_neg hn]
        exact resample_ok_length sig bak r hrows hres

/-- Witness for C1 at the concrete decimation instance `cSigDec`/`cBak`
(`dt_sig = 1`, `dt_tel = 4`, factor `4`, one voltage row of four samples). -/
theorem observe_resampling_dispatch_witness :
    resample cSigDec cBak =
      .ok (cSigDec.signal.map fun row =>
        down_sample row (⌊dtTel cBak / dtSig cSigDec⌋).toNat) ∧
    (cSigDec.signal.map fun row =>
      down_sample row (⌊dtTel cBak / dtSig cSigDec⌋).toNat).length = rowCount cSigDec ∧
    (∀ r ∈ cSigDec.signal.map fun row =>
      down_sample row (⌊dtTel cBak / dtSig cSigDec⌋).toNat,
        r.length = cSigDec.Nt / (⌊dtTel cBak / dtSig cSigDec⌋).toNat) := by
  exact (observe_resampling_dispatch cSigDec cBak rfl
      (by intro row h; simp [cSigDec] at h; rw [h]; rfl)).2.1
    (by norm_num [dtSig, dtTel, cSigDec, cBak])
    (by norm_num [qmod, dtSig, dtTel, cSigDec, cBak])

/-- C2: with a registered system and positive sample rate, observation time
and sample count, `observe` fails with the sample-rate error exactly when the
signal's native interval is strictly greater than the telescope interval
(`dt_tel < dt_sig`); the failure is an `Except.error`, so no output array is
allocated or returned. -/
theorem observe_sampleRateError_iff (tel : Telescope) (sig : Signal)
    (system mode : String) (noise : Bool)
    (rn : Signal → ℕ × ℕ → ℚ → ℕ → ℕ → ℚ) (rec : Receiver) (bak : Backend)
    (hlook : List.lookup system tel.systems = some (rec, bak))
    (hsr : 0 < bak.samprate) (hT : 0 < sig.ObsTime) (hNt : 0 < sig.Nt) :
    observe tel sig system mode noise rn = .error .sampleRateError ↔
      dtTel bak < dtSig sig := by
  unfold observe
  rw [hlook]
  dsimp only
  constructor
  · intro h
    cases hres : resample sig bak with
    | error e =>
      rw [hres] at h
      dsimp only at h
      cases e with
      | configurationError => exact absurd h (by simp)
      | sampleRateError => exact (resample_error_iff sig bak hsr hT hNt).mp hres
    | ok out =>
      rw [hres] at h
      dsimp only at h
      exact absurd h (by simp)
  · intro hlt
    rw [(resample_error_iff sig bak hsr hT hNt).mpr hlt]

/-- Witness for C2 at `cSigErr`/`cTel` (`dt_sig = 5 > 4 = dt_tel`). -/
theorem observe_sampleRateError_iff_witness :
    observe cTel cSigErr "s" "search" false rnZero = .error .sampleRateError := by
  refine (observe_sampleRateError_iff cTel cSigErr "s" "search" false rnZero
    cRec cBak rfl (by norm_num [cBak]) (by norm_num [cSigErr])
    (by norm_num [cSigErr])).mpr ?_
  norm_num [dtTel, dtSig, cBak, cSigErr]

/-- C3: for every system name not present in the telescope's `systems`
mapping, `observe` fails with the configuration error (the `KeyError` of
`self.systems[system]`) and produces no output array. -/
theorem observe_unknown_system (tel : Telescope) (sig : Signal)
    (system mode : String) (noise : Bool)
    (rn : Signal → ℕ × ℕ → ℚ → ℕ → ℕ → ℚ)
    (h : List.lookup system tel.systems = none) :
    observe tel sig system mode noise rn = .error .configurationError := by
  unfold observe
  rw [h]

/-- Witness for C3: requesting system `"s"` of a telescope with no registered
systems fails with the configuration error. -/
theorem observe_unknown_system_witness :
    List.lookup "s" cTelEmpty.systems = none ∧
    observe cTelEmpty cSigPass "s" "search" false rnZero =
      .error .configurationError := by
  refine ⟨rfl, ?_⟩
  exact observe_unknown_system cTelEmpty cSigPass "s" "search" false rnZero rfl

end PsrSigSim

namespace PsrSigSim

theorem clipHi_id (c : ℚ) (arr : List (List ℚ))
    (h : ∀ row ∈ arr, ∀ v ∈ row, v ≤ c) : clipHi c arr = arr := by
  unfold clipHi
  calc arr.map (fun row => row.map fun v => if v > c then c else v)
      = arr.map id := by
        apply List.map_congr_left
        intro row hrow
        calc row.map (fun v => if v > c then c else v) = row.map id := by
              apply List.map_congr_left
              intro v hv
              simp [not_lt.mpr (h row hrow v hv)]
          _ = row := List.map_id row
    _ = arr := List.map_id arr

theorem clipLo_id (c : ℚ) (arr : List (List ℚ))
    (h : ∀ row ∈ arr, ∀ v ∈ row, -c ≤ v) : clipLo c arr = arr := by
  unfold clipLo
  calc arr.map (fun row => row.map fun v => if v < -c then -c else v)
      = arr.map id := by
        apply List.map_congr_left
        intro row hrow
        calc row.map (fun v => if v < -c then -c else v) = row.map id := by
              apply List.map_congr_left
              intro v hv
              simp [not_lt.mpr (h row hrow v hv)]
          _ = row := List.map_id row
    _ = arr := List.map_id arr

theorem castMap_float_id (arr : List (List ℚ)) :
    arr.map (fun row => row.map (castVal NpDtype.float32)) = arr := by
  have h : castVal NpDtype.float32 = fun q => q := rfl
  rw [h]
  simp

theorem clipQuant_id (sig : Signal) (arr : List (List ℚ))
    (hdt : sig.MetaData.data_type = NpDtype.float32)
    (hin : ∀ row ∈ arr, ∀ v ∈ row,
      (sig.SignalType = "voltage" →
        -sig.MetaData.gauss_draw_max ≤ v ∧ v ≤ sig.MetaData.gauss_draw_max) ∧
      (sig.SignalType ≠ "voltage" → v ≤ sig.MetaData.gamma_draw_max)) :
    clipQuant sig arr = arr := by
  unfold clipQuant
  rw [hdt]
  by_cases hv : sig.SignalType = "voltage"
  · dsimp only
    rw [if_pos hv,
      clipHi_id _ _ (fun row hrow v hvv => ((hin row hrow v hvv).1 hv).2),
      clipLo_id _ _ (fun row hrow v hvv => ((hin row hrow v hvv).1 hv).1),
      castMap_float_id]
  · dsimp only
    rw [if_neg hv,
      clipHi_id _ _ (fun row hrow v hvv => (hin row hrow v hvv).2 hv),
      castMap_float_id]

/-- C4, corrected: the claim that `observe` with `noise=False` is the
identity in the passthrough case fails on the code, because the quantizer's
clip and cast run in every case; it holds once every sample lies within the
representation's clip limits and the output representation is the float one.
This theorem is the amended claim: for a registered system, `dt_sig = dt_tel`,
a `float32` output representation, and all samples within the clip bounds of
the signal's kind, `observe` with `noise=False` returns the input data array
unchanged in value and shape. -/
theorem observe_passthrough_identity_in_range (tel : Telescope) (sig : Signal)
    (system mode : String) (rn : Signal → ℕ × ℕ → ℚ → ℕ → ℕ → ℚ)
    (rec : Receiver) (bak : Backend)
    (hlook : List.lookup system tel.systems = some (rec, bak))
    (heq : dtSig sig = dtTel bak)
    (hdt : sig.MetaData.data_type = NpDtype.float32)
    (hin : ∀ row ∈ sig.signal, ∀ v ∈ row,
      (sig.SignalType = "voltage" →
        -sig.MetaData.gauss_draw_max ≤ v ∧ v ≤ sig.MetaData.gauss_draw_max) ∧
      (sig.SignalType ≠ "voltage" → v ≤ sig.MetaData.gamma_draw_max)) :
    observe tel sig system mode false rn = .ok sig.signal := by
  unfold observe
  rw [hlook]
  dsimp only
  rw [resample_passthrough sig bak heq]
  show Except.ok (clipQuant sig sig.signal) = Except.ok sig.signal
  rw [clipQuant_id sig sig.signal hdt hin]

/-- Witness for the amended C4: a passthrough observation of the in-range
signal `cSigOk` returns its data unchanged. -/
theorem observe_passthrough_identity_in_range_witness :
    observe cTel cSigOk "s" "search" false rnZero = .ok cSigOk.signal := by
  apply observe_passthrough_identity_in_range cTel cSigOk "s" "search" rnZero
    cRec cBak rfl
  · norm_num [dtSig, dtTel, cSigOk, cBak]
  · rfl
  · intro row hrow v hv
    simp [cSigOk] at hrow
    rw [hrow] at hv
    simp at hv
    rw [hv]
    constructor
    · intro h1
      norm_num [cSigOk, cMeta]
    · intro h2
      exact absurd rfl h2

/-- Counterexample to C4 as stated: `cSigPass` satisfies `dt_sig = dt_tel`
and `observe` with `noise=False` still changes its data — the sample `300`
above the voltage clip `200` comes back as `200`, not `300`. -/
theorem observe_passthrough_clips_counterexample :
    dtSig cSigPass = dtTel cBak ∧
    cSigPass.signal = [[(300 : ℚ)]] ∧
    observe cTel cSigPass "s" "search" false rnZero = .ok [[(200 : ℚ)]] ∧
    ((200 : ℚ) ≠ (300 : ℚ)) := by
  refine ⟨by norm_num [dtSig, dtTel, cSigPass, cBak], rfl, ?_, by norm_num⟩
  simp [observe, cTel, resample, dtSig, dtTel, cSigPass, cBak, qmod, clipQuant,
    clipHi, clipLo, cMeta, noiseDt, subintTruthy, cRec]
  norm_num [castVal]

end PsrSigSim

namespace PsrSigSim

/-- C5: the resampled output (and hence its shape) is computed from the
backend-derived `dt_tel` and does not depend on `subintlen`; only afterwards
is the time step handed to the noise generator replaced by
`subintlen * 1000` (seconds to milliseconds) when `subintlen` is set; the
override never changes the output array's shape — with or without noise, the
shape of `observe`'s result is the same for any `subintlen` value. -/
theorem subintlen_override_after_resampling (sig : Signal) (bak : Backend) :
    (∀ s1 s2 : Option ℚ,
      resample { sig with subintlen := s1 } bak =
        resample { sig with subintlen := s2 } bak)
    ∧ (∀ s : ℚ, sig.subintlen = some s → s ≠ 0 →
      noiseDt sig (dtTel bak) = s * 1000)
    ∧ (∀ (tel : Telescope) (system mode : String) (noise : Bool)
        (rn : Signal → ℕ × ℕ → ℚ → ℕ → ℕ → ℚ) (s1 s2 : Option ℚ),
      (observe tel { sig with subintlen := s1 } system mode noise rn).map arrShape =
        (observe tel { sig with subintlen := s2 } system mode noise rn).map arrShape) := by
  refine ⟨fun s1 s2 => rfl, ?_, ?_⟩
  · intro s hs hs0
    simp [noiseDt, subintTruthy, hs, hs0]
  · intro tel system mode noise rn s1 s2
    unfold observe
    cases hl : List.lookup system tel.systems with
    | none => rfl
    | some p =>
      obtain ⟨rec, bak2⟩ := p
      dsimp only
      have hres : resample { sig with subintlen := s1 } bak2 =
          resample { sig with subintlen := s2 } bak2 := rfl
      rw [hres]
      cases hr : resample { sig with subintlen := s2 } bak2 with
      | error e => rfl
      | ok out =>
        dsimp only
        simp only [Except.map]
        by_cases hn : noise
        · rw [if_pos hn, if_pos hn, arrShape_clipQuant, arrShape_clipQuant,
            arrShape_addNoise, arrShape_addNoise]
        · rw [if_neg hn, if_neg hn, arrShape_clipQuant, arrShape_clipQuant]

/-- Witness for C5: the signal `cSigSub` carries `subintlen = 2` s, so the
noise time step becomes `2000` ms. -/
theorem subintlen_override_after_resampling_witness :
    noiseDt cSigSub (dtTel cBak) = 2 * 1000 :=
  (subintlen_override_after_resampling cSigSub cBak).2.1 2 rfl (by norm_num)

/-- C6: for every array reaching the quantizer, the voltage clip maps any
sample strictly above `clip` to exactly `clip`, any sample strictly below
`-clip` to exactly `-clip`, and leaves in-range samples unchanged; the
intensity clip maps any sample above `clip` to `clip` with no lower clip, so
no sample of its output exceeds `clip`. -/
theorem quantizer_clip_behaviour (clip : ℚ) (arr : List (List ℚ))
    (hc : 0 ≤ clip) :
    (∀ i j v, ((arr.get? i).bind fun row => row.get? j) = some v →
      (((clipLo clip (clipHi clip arr)).get? i).bind fun row => row.get? j) =
        some (if clip < v then clip else if v < -clip then -clip else v))
    ∧ (∀ i j v, ((arr.get? i).bind fun row => row.get? j) = some v →
      (((clipHi clip arr).get? i).bind fun row => row.get? j) =
        some (if clip < v then clip else v))
    ∧ (∀ row ∈ clipHi clip arr, ∀ v ∈ row, v ≤ clip) := by
  refine ⟨?_, ?_, ?_⟩
  · intro i j v h
    cases ha : arr.get? i with
    | none => rw [ha] at h; simp at h
    | some row =>
      rw [ha] at h
      simp only [Option.some_bind] at h
      unfold clipLo clipHi
      rw [List.get?_map, List.get?_map, ha]
      simp only [Option.map_some', Option.some_bind, List.get?_map, h]
      congr 1
      split_ifs <;> linarith
  · intro i j v h
    cases ha : arr.get? i with
    | none => rw [ha] at h; simp at h
    | some row =>
      rw [ha] at h
      simp only [Option.some_bind] at h
      unfold clipHi
      rw [List.get?_map, ha]
      simp only [Option.map_some', Option.some_bind, List.get?_map, h]
  · intro row hrow v hv
    unfold clipHi at hrow
    rcases List.mem_map.mp hrow with ⟨r, hr, hrm⟩
    rw [← hrm] at hv
    rcases List.mem_map.mp hv with ⟨w, hw, hwm⟩
    rw [← hwm]
    by_cases h1 : clip < w
    · rw [if_pos h1]
    · rw [if_neg h1]
      exact le_of_not_lt h1

/-- Witness for C6: with voltage clip `200`, the sample `300` comes out as
exactly `200`. -/
theorem quantizer_clip_behaviour_witness :
    (((clipLo 200 (clipHi 200 [[(300 : ℚ), -300, 5]])).get? 0).bind
      fun row => row.get? 0) = some 200 := by
  have h := (quantizer_clip_behaviour 200 [[(300 : ℚ), -300, 5]]
    (by norm_num)).1 0 0 300 (by simp)
  rw [h]
  norm_num

/-- C7: `observe` leaves the input signal and every telescope attribute
unchanged (the state-passing form returns both exactly as given — every
in-place update in the method body targets the freshly allocated local
array), and with `noise=False` its result is a deterministic function of the
signal (including its representation metadata) and the named system's
backend: two telescopes differing in every other attribute, in the system's
receiver and in the noise generator produce identical results. -/
theorem observe_pure_deterministic (tel tel2 : Telescope) (sig : Signal)
    (system mode : String) (noise : Bool)
    (rn rn2 : Signal → ℕ × ℕ → ℚ → ℕ → ℕ → ℚ)
    (rec rec2 : Receiver) (bak : Backend)
    (hlook : List.lookup system tel.systems = some (rec, bak))
    (hlook2 : List.lookup system tel2.systems = some (rec2, bak)) :
    (observeSt tel sig system mode noise rn).2.1 = tel
    ∧ (observeSt tel sig system mode noise rn).2.2 = sig
    ∧ observe tel sig system mode false rn = observe tel2 sig system mode false rn2 := by
  refine ⟨rfl, rfl, ?_⟩
  unfold observe
  rw [hlook, hlook2]
  rfl

/-- Witness for C7 at `cTel`/`cTel2`, which share only the backend of system
`"s"`. -/
theorem observe_pure_deterministic_witness :
    (observeSt cTel cSigDec "s" "search" false rnZero).2.1 = cTel ∧
    (observeSt cTel cSigDec "s" "search" false rnZero).2.2 = cSigDec ∧
    observe cTel cSigDec "s" "search" false rnZero =
      observe cTel2 cSigDec "s" "search" false rnOne :=
  observe_pure_deterministic cTel cTel2 cSigDec "s" "search" false rnZero rnOne
    cRec cRec2 cBak rfl rfl

/-- C8: for the supported representations the draw normalization set by
`_set_draw_norm` is a pure function of the declared dtype alone — two
instances with the same dtype get the same `draw_max`/`draw_norm` — with
`draw_max = 200`, `draw_norm = 1` for `float32` and
`draw_max = 127` (the `int8` maximum), `draw_norm = 127 / gauss_limit`
(`gauss_limit` being the 0.999 Gaussian quantile) for `int8`. -/
theorem set_draw_norm_pure (gl : ℚ) (s t : BaseSignal)
    (hsupp : s.dtype = NpDtype.float32 ∨ s.dtype = NpDtype.int8)
    (h : s.dtype = t.dtype) :
    ((set_draw_norm gl s).draw_max = (set_draw_norm gl t).draw_max ∧
     (set_draw_norm gl s).draw_norm = (set_draw_norm gl t).draw_norm)
    ∧ (s.dtype = NpDtype.float32 →
      (set_draw_norm gl s).draw_max = some 200 ∧ (set_draw_norm gl s).draw_norm = 1)
    ∧ (s.dtype = NpDtype.int8 →
      (set_draw_norm gl s).draw_max = some 127 ∧
      (set_draw_norm gl s).draw_norm = 127 / gl) := by
  refine ⟨?_, ?_, ?_⟩
  · rcases hsupp with hd | hd <;> rw [hd] at h <;>
      simp [set_draw_norm, hd, ← h, int8max]
  · intro hd
    simp [set_draw_norm, hd, int8max]
  · intro hd
    simp [set_draw_norm, hd, int8max]

/-- Witness for C8 at two `int8` instances differing in every other field,
with `gauss_limit = 3`. -/
theorem set_draw_norm_pure_witness :
    (set_draw_norm 3 cBS1).draw_max = (set_draw_norm 3 cBS2).draw_max ∧
    (set_draw_norm 3 cBS1).draw_norm = (set_draw_norm 3 cBS2).draw_norm ∧
    (set_draw_norm 3 cBS1).draw_max = some 127 ∧
    (set_draw_norm 3 cBS1).draw_norm = 127 / 3 := by
  have h := set_draw_norm_pure 3 cBS1 cBS2 (Or.inr rfl) rfl
  exact ⟨h.1.1, h.1.2, (h.2.2 rfl).1, (h.2.2 rfl).2⟩

/-- C9: the unsupported-dtype `ValueError` branch of `BaseSignal.__init__` is
unreachable — the guard references the undefined name `dype`, so the
constructor fails with `NameError` for every input; and even with `dype` read
as the intended `dtype`, the guard `dtype is np.float32 or np.int8` is truthy
for every dtype, so the documented `ValueError` would still never be
raised. -/
theorem baseSignalInit_valueerror_unreachable :
    (∀ (fc bw : ℚ) (sr : Option ℚ) (d : NpDtype),
      baseSignalInit fc bw sr d = .error .nameError)
    ∧ (∀ d : NpDtype, dtypeGuardIntendedRead d = true) := by
  constructor
  · intro fc bw sr d
    unfold baseSignalInit
    rw [if_neg (by decide : ¬ "dype" ∈ initLocalNames)]
  · intro d
    simp [dtypeGuardIntendedRead, npInt8ClassTruthy]

/-- C10: the `subintlen` override is gated on Python truthiness, not
presence: with `subintlen` equal to `None` or `0` the noise time step stays
the backend-derived `dt_tel`, and with any nonzero `subintlen` the override
applies regardless of the signal's kind. -/
theorem noise_dt_truthiness :
    (∀ (sig : Signal) (dt : ℚ), sig.subintlen = none → noiseDt sig dt = dt)
    ∧ (∀ (sig : Signal) (dt : ℚ), sig.subintlen = some 0 → noiseDt sig dt = dt)
    ∧ (∀ (sig : Signal) (dt x : ℚ), sig.subintlen = some x → x ≠ 0 →
      noiseDt sig dt = x * 1000) := by
  refine ⟨?_, ?_, ?_⟩
  · intro sig dt h
    simp [noiseDt, subintTruthy, h]
  · intro sig dt h
    simp [noiseDt, subintTruthy, h]
  · intro sig dt x h hx
    simp [noiseDt, subintTruthy, h, hx]

/-- Witness for C10: the voltage signal `cSigSub` (`subintlen = 2`) gets the
override, while `cSigPass` (`subintlen = None`) keeps the given time step. -/
theorem noise_dt_truthiness_witness :
    noiseDt cSigSub 7 = 2 * 1000 ∧ noiseDt cSigPass 7 = 7 ∧
    cSigSub.SignalType = "voltage" := by
  refine ⟨?_, ?_, rfl⟩
  · exact noise_dt_truthiness.2.2 cSigSub 7 2 rfl (by norm_num)
  · exact noise_dt_truthiness.1 cSigPass 7 rfl

end PsrSigSim
